import Mathlib

/-! Shallow embedding of the sqltools repository core: the connection string
resolver in executers.py and the TempTable construction in helpers.py.
Python exceptions are modeled explicitly: KeyError raised by os.environ and
by the descriptor dictionary lookup, IndexError raised by list indexing
during table name extraction. Database effects are modeled as an event
trace recording each connection opened and each statement executed, with
connections numbered in order of opening. The regular expression
INTO\s##\w+ with IGNORECASE is modeled over ASCII characters. -/

namespace Sqltools

/-- Process environment as read by the resolver: the two variables
SQLUSERNAME and SQLPASSWORD, each none when unset. -/
structure OsEnv where
  sqlusername : Option String
  sqlpassword : Option String
  deriving DecidableEq, Repr

/-- Python exceptions raised by the embedded code: KeyError with its key,
and IndexError from out of range list indexing. -/
inductive PyError where
  | keyError (key : String)
  | indexError
  deriving DecidableEq, Repr

/-- Python string interpolation of an Optional value: None prints as the
text None. -/
def pyFormatOpt : Option String → String
  | some s => s
  | none => "None"

/-- One credential lookup step of the resolver: an explicit argument wins,
otherwise the environment variable is read, and a missing variable raises
KeyError with the variable name, as os.environ does. -/
def resolveEnvCred (explicit : Option String) (envVal : Option String)
    (varName : String) : Except PyError (Option String) :=
  match explicit with
  | some v => Except.ok (some v)
  | none =>
    match envVal with
    | some v => Except.ok (some v)
    | none => Except.error (PyError.keyError varName)

/-- The descriptor dictionary of _get_connection_string and its final
lookup: keys win32, lin and darwin, and KeyError on any other platform
value. The dictionary entries are transcribed from executers.py lines
54 to 70. -/
def connectionStringLookup (database server : String)
    (username password : Option String) (dsn platform : String) :
    Except PyError String :=
  if platform = "win32" then
    Except.ok ("Driver=\x7bODBC Driver 13 for SQL Server\x7d;Server=" ++ server ++
      ";Database=" ++ database ++ ";Trusted_Connection=yes;")
  else if platform = "lin" then
    Except.ok ("Driver=\x7bODBC Driver 13 for SQL Server\x7d;Server=" ++ server ++
      ";UID=" ++ pyFormatOpt username ++ ";PWD=" ++ pyFormatOpt password ++
      ";Database=" ++ database ++ ";Trusted_Connection=yes;")
  else if platform = "darwin" then
    Except.ok ("DSN=" ++ dsn ++ ";UID=" ++ pyFormatOpt username ++
      ";PWD=" ++ pyFormatOpt password ++ ";Database=" ++ database ++ ";")
  else
    Except.error (PyError.keyError platform)

/-- The resolver _get_connection_string of executers.py: on platform darwin
or linux a missing username is read from SQLUSERNAME and then a missing
password from SQLPASSWORD, each raising KeyError when unset; afterwards the
descriptor dictionary is indexed by the platform value. -/
def _get_connection_string (database server : String)
    (username password : Option String) (dsn platform : String)
    (env : OsEnv) : Except PyError String :=
  if platform = "darwin" ∨ platform = "linux" then
    match resolveEnvCred username env.sqlusername "SQLUSERNAME" with
    | Except.error e => Except.error e
    | Except.ok u =>
      match resolveEnvCred password env.sqlpassword "SQLPASSWORD" with
      | Except.error e => Except.error e
      | Except.ok p => connectionStringLookup database server u p dsn platform
  else
    connectionStringLookup database server username password dsn platform

/-- Observable database effects: opening a connection with a given
connection string, and executing a statement on an open connection.
Connections are numbered in order of opening. -/
inductive Event where
  | connect (id : Nat) (connectionString : String)
  | execute (id : Nat) (statement : String)
  deriving DecidableEq, Repr

/-- run_command of executers.py: it builds a connection string from its
arguments with the ambient platform, opens its own connection, and executes
the one command on it. The returned trace lists the events that occurred;
the result is the next free connection number, or the resolver error. -/
def run_command (command database server : String)
    (username password : Option String) (dsn sysPlatform : String)
    (env : OsEnv) (nextId : Nat) : List Event × Except PyError Nat :=
  match _get_connection_string database server username password dsn
      sysPlatform env with
  | Except.error e => ([], Except.error e)
  | Except.ok cs =>
    ([Event.connect nextId cs, Event.execute nextId command],
      Except.ok (nextId + 1))

/-- Python regex class \s over ASCII: space, tab, newline, carriage
return, vertical tab and form feed. -/
def isPySpace (c : Char) : Bool :=
  c.toNat = 32 || c.toNat = 9 || c.toNat = 10 || c.toNat = 13 ||
    c.toNat = 11 || c.toNat = 12

/-- Python regex class \w over ASCII: letters, digits and underscore. -/
def isPyWord (c : Char) : Bool :=
  c.isAlphanum || c = '_'

/-- Attempt to match the regex INTO\s##\w+ with IGNORECASE at the head of
the character list, returning the greedy match. -/
def matchMarkerAt (l : List Char) : Option (List Char) :=
  match l with
  | c1 :: c2 :: c3 :: c4 :: c5 :: c6 :: c7 :: rest =>
    if c1.toLower == 'i' && c2.toLower == 'n' && c3.toLower == 't' &&
        c4.toLower == 'o' && isPySpace c5 && c6 == '#' && c7 == '#' &&
        !(rest.takeWhile isPyWord).isEmpty then
      some (c1 :: c2 :: c3 :: c4 :: c5 :: c6 :: c7 :: rest.takeWhile isPyWord)
    else
      none
  | _ => none

/-- Leftmost match of the marker regex in the character list, as the first
element of re.findall would be. -/
def findFirstMatch : List Char → Option (List Char)
  | [] => none
  | c :: cs =>
    match matchMarkerAt (c :: cs) with
    | some m => some m
    | none => findFirstMatch cs

/-- Python str.split on the single space separator, keeping empty pieces. -/
def splitOnSpace : List Char → List (List Char)
  | [] => [[]]
  | c :: cs =>
    if c = ' ' then
      [] :: splitOnSpace cs
    else
      match splitOnSpace cs with
      | [] => [[c]]
      | g :: gs => (c :: g) :: gs

/-- Name extraction of TempTable, helpers.py lines 78 to 81: first regex
match of the marker, then split on single spaces and take element 1; a
missing match or a missing element raises IndexError. -/
def extractTempTableName (command : String) : Except PyError String :=
  match findFirstMatch command.toList with
  | none => Except.error PyError.indexError
  | some m =>
    match (splitOnSpace m).get? 1 with
    | none => Except.error PyError.indexError
    | some nameChars => Except.ok (String.mk nameChars)

/-- The conditional drop statement built by TempTable for a table name,
helpers.py lines 83 to 85. -/
def dropCommandFor (tempTableName : String) : String :=
  "IF OBJECT_ID(\x27tempdb.." ++ tempTableName ++
    "\x27,\x27U\x27) IS NOT NULL DROP TABLE " ++ tempTableName ++ ";"

/-- TempTable construction, helpers.py lines 69 to 96: extract the table
name, run the conditional drop through run_command with all of its default
arguments, then build a connection string from the constructor arguments,
open the dedicated connection and execute the creation command on it. The
result is the extracted name and the number of the held connection, or the
first error raised; the trace lists every event that occurred before the
error. -/
def TempTable.init (command database server : String)
    (username password : Option String) (dsn sysPlatform : String)
    (env : OsEnv) : List Event × Except PyError (String × Nat) :=
  match extractTempTableName command with
  | Except.error e => ([], Except.error e)
  | Except.ok temp_table_name =>
    match run_command (dropCommandFor temp_table_name) "QuantDB"
        "DC1Q2PSQLGE1V" none none "MYMSSQL" sysPlatform env 0 with
    | (ev1, Except.error e) => (ev1, Except.error e)
    | (ev1, Except.ok n1) =>
      match _get_connection_string database server username password dsn
          sysPlatform env with
      | Except.error e => (ev1, Except.error e)
      | Except.ok cs =>
        (ev1 ++ [Event.connect n1 cs, Event.execute n1 command],
          Except.ok (temp_table_name, n1))

/-- Number of the connection on which a given statement is executed in a
trace, taking the first execution of that statement. -/
def execConnId (tr : List Event) (stmt : String) : Option Nat :=
  tr.findSome? fun e =>
    match e with
    | Event.execute i s => if s = stmt then some i else none
    | _ => none

/-- Parameter list of _get_connection_string as written in executers.py
lines 12 to 19: each entry is the parameter name and the text of its
default expression, none when the parameter is required. -/
def getConnectionStringParams : List (String × Option String) :=
  [("database", none), ("server", none), ("username", some "None"),
   ("password", some "None"), ("dsn", some "MYMSSQL"),
   ("platform", some "sys.platform")]

/-- Parameter list of TempTable construction as written in helpers.py
lines 69 to 77, transcribed the same way. -/
def tempTableInitParams : List (String × Option String) :=
  [("command", none), ("database", some "QuantDB"),
   ("server", some "DC1Q2PSQLGE1V"), ("username", some "None"),
   ("password", some "None"), ("dsn", some "MYMSSQL")]

/-- Connection string the resolver builds for the module default database
and server on the win32 platform. -/
def winDefaultCS : String :=
  "Driver=\x7bODBC Driver 13 for SQL Server\x7d;Server=DC1Q2PSQLGE1V;Database=QuantDB;Trusted_Connection=yes;"

/-- Connection string the resolver builds for a caller chosen database and
server on the win32 platform. -/
def winOtherCS : String :=
  "Driver=\x7bODBC Driver 13 for SQL Server\x7d;Server=OtherServer;Database=OtherDB;Trusted_Connection=yes;"

/-- A sample TempTable construction on the win32 platform with the default
database, server and dsn arguments. -/
def sampleConstruction : List Event × Except PyError (String × Nat) :=
  TempTable.init "SELECT 1 AS test INTO ##one;" "QuantDB" "DC1Q2PSQLGE1V"
    none none "MYMSSQL" "win32" (OsEnv.mk none none)

/-- The event trace of sampleConstruction, written out. -/
def sampleTraceWin : List Event :=
  [Event.connect 0 winDefaultCS, Event.execute 0 (dropCommandFor "##one"),
   Event.connect 1 winDefaultCS,
   Event.execute 1 "SELECT 1 AS test INTO ##one;"]

/-- The event trace of the same construction with a caller chosen database
and server, written out: the drop connection still targets the module
defaults while the dedicated connection targets the caller values. -/
def sampleTraceOther : List Event :=
  [Event.connect 0 winDefaultCS, Event.execute 0 (dropCommandFor "##one"),
   Event.connect 1 winOtherCS,
   Event.execute 1 "SELECT 1 AS test INTO ##one;"]

/-- A credential lookup only ever fails with KeyError on its own variable
name. -/
theorem resolveEnvCred_error (explicit envVal : Option String)
    (varName : String) (e : PyError)
    (h : resolveEnvCred explicit envVal varName = Except.error e) :
    e = PyError.keyError varName := by
  cases explicit with
  | some v => simp [resolveEnvCred] at h
  | none =>
    cases envVal with
    | some v => simp [resolveEnvCred] at h
    | none =>
      simp only [resolveEnvCred, Except.error.injEq] at h
      exact h.symm

/-- Claim C1 evaluation: with both environment variables set and both
credential arguments omitted, the darwin platform returns a descriptor
embedding the two environment values verbatim as UID and PWD, but the
linux platform raises KeyError on the descriptor dictionary lookup,
because the dictionary keys the posix shape without DSN as lin while the
resolver and its docstring use the platform value linux. -/
theorem c1_linux_key_error :
    _get_connection_string "QuantDB" "DC1Q2PSQLGE1V" none none "MYMSSQL"
        "darwin" (OsEnv.mk (some "alice") (some "hunter2")) =
      Except.ok "DSN=MYMSSQL;UID=alice;PWD=hunter2;Database=QuantDB;" ∧
    _get_connection_string "QuantDB" "DC1Q2PSQLGE1V" none none "MYMSSQL"
        "linux" (OsEnv.mk (some "alice") (some "hunter2")) =
      Except.error (PyError.keyError "linux") :=
  ⟨rfl, rfl⟩

/-- Claim C6: on the win32 platform the resolver ignores username,
password, dsn and the environment entirely and always returns the trusted
authentication descriptor built from server and database only. -/
theorem c6_win32_ignores_credentials (database server dsn1 dsn2 : String)
    (u1 p1 u2 p2 : Option String) (env1 env2 : OsEnv) :
    _get_connection_string database server u1 p1 dsn1 "win32" env1 =
      Except.ok ("Driver=\x7bODBC Driver 13 for SQL Server\x7d;Server=" ++
        server ++ ";Database=" ++ database ++ ";Trusted_Connection=yes;") ∧
    _get_connection_string database server u1 p1 dsn1 "win32" env1 =
      _get_connection_string database server u2 p2 dsn2 "win32" env2 :=
  ⟨rfl, rfl⟩

/-- Claim C7: the table name is extracted from the first occurrence of the
marker; the sample command yields the name ##one, and a command containing
a later marker naming ##two still yields ##one. -/
theorem c7_first_marker_extraction :
    sampleConstruction.2 = Except.ok ("##one", 1) ∧
    (TempTable.init "SELECT 1 AS test INTO ##one; SELECT 2 AS test INTO ##two;"
        "QuantDB" "DC1Q2PSQLGE1V" none none "MYMSSQL" "win32"
        (OsEnv.mk none none)).2 = Except.ok ("##one", 1) :=
  ⟨rfl, rfl⟩

/-- Claim C2 counterexample: in the sample construction the conditional
drop statement is executed on connection 0, opened by run_command, while
the creation statement is executed on connection 1, the dedicated
connection the handle holds; the two statements do not share a session. -/
theorem c2_counterexample_drop_on_other_connection :
    execConnId sampleConstruction.1 (dropCommandFor "##one") = some 0 ∧
    execConnId sampleConstruction.1 "SELECT 1 AS test INTO ##one;" = some 1 ∧
    execConnId sampleConstruction.1 (dropCommandFor "##one") ≠
      execConnId sampleConstruction.1 "SELECT 1 AS test INTO ##one;" := by
  refine ⟨rfl, rfl, by decide⟩

/-- Claim C8 counterexample: TempTable construction accepts no platform
option at all, and in the resolver the database parameter is required
rather than defaulting to QuantDB. -/
theorem c8_counterexample_option_sets :
    tempTableInitParams.lookup "platform" = none ∧
    getConnectionStringParams.lookup "database" = some none := by
  decide

/-- Claim C8 amended: the two core operations share the five options
database, server, username, password and dsn, with username and password
defaulting to None and dsn to MYMSSQL; TempTable construction additionally
defaults database to QuantDB and server to DC1Q2PSQLGE1V and accepts no
platform option, while the resolver requires database and server and
additionally accepts platform defaulting to the autodetected platform. -/
theorem c8_amended_option_sets :
    getConnectionStringParams.lookup "database" = some none ∧
    getConnectionStringParams.lookup "server" = some none ∧
    getConnectionStringParams.lookup "username" = some (some "None") ∧
    getConnectionStringParams.lookup "password" = some (some "None") ∧
    getConnectionStringParams.lookup "dsn" = some (some "MYMSSQL") ∧
    getConnectionStringParams.lookup "platform" = some (some "sys.platform") ∧
    tempTableInitParams.lookup "database" = some (some "QuantDB") ∧
    tempTableInitParams.lookup "server" = some (some "DC1Q2PSQLGE1V") ∧
    tempTableInitParams.lookup "username" = some (some "None") ∧
    tempTableInitParams.lookup "password" = some (some "None") ∧
    tempTableInitParams.lookup "dsn" = some (some "MYMSSQL") ∧
    tempTableInitParams.lookup "platform" = none := by
  decide

/-- Claim C4: on the darwin and linux platforms, an omitted username with
SQLUSERNAME unset, or an omitted password with SQLPASSWORD unset, makes
the resolver raise KeyError on the missing variable; no default is
substituted and no descriptor is returned. -/
theorem c4_missing_credential_fails (database server dsn : String)
    (username password : Option String) (env : OsEnv) (platform : String)
    (hplat : platform = "darwin" ∨ platform = "linux")
    (hmiss : (username = none ∧ env.sqlusername = none) ∨
             (password = none ∧ env.sqlpassword = none)) :
    _get_connection_string database server username password dsn platform
        env = Except.error (PyError.keyError "SQLUSERNAME") ∨
    _get_connection_string database server username password dsn platform
        env = Except.error (PyError.keyError "SQLPASSWORD") := by
  rcases hmiss with ⟨hu, he⟩ | ⟨hp, he⟩
  · left
    subst hu
    unfold _get_connection_string
    rw [if_pos hplat, he]
    exact rfl
  · cases hu : resolveEnvCred username env.sqlusername "SQLUSERNAME" with
    | error e =>
      left
      have he2 := resolveEnvCred_error _ _ _ _ hu
      subst he2
      unfold _get_connection_string
      rw [if_pos hplat, hu]
    | ok u =>
      right
      subst hp
      unfold _get_connection_string
      rw [if_pos hplat, hu, he]
      exact rfl

/-- Witness for claim C4 at a concrete input: darwin platform, both
credential arguments omitted, SQLUSERNAME unset and SQLPASSWORD set. -/
theorem c4_missing_credential_fails_witness :
    (("darwin" : String) = "darwin" ∨ ("darwin" : String) = "linux") ∧
    (((none : Option String) = none ∧
        (OsEnv.mk none (some "pw")).sqlusername = none) ∨
      ((none : Option String) = none ∧
        (OsEnv.mk none (some "pw")).sqlpassword = none)) ∧
    (_get_connection_string "QuantDB" "DC1Q2PSQLGE1V" none none "MYMSSQL"
        "darwin" (OsEnv.mk none (some "pw")) =
          Except.error (PyError.keyError "SQLUSERNAME") ∨
     _get_connection_string "QuantDB" "DC1Q2PSQLGE1V" none none "MYMSSQL"
        "darwin" (OsEnv.mk none (some "pw")) =
          Except.error (PyError.keyError "SQLPASSWORD")) :=
  ⟨Or.inl rfl, Or.inl ⟨rfl, rfl⟩,
    c4_missing_credential_fails "QuantDB" "DC1Q2PSQLGE1V" "MYMSSQL" none
      none (OsEnv.mk none (some "pw")) "darwin" (Or.inl rfl)
      (Or.inl ⟨rfl, rfl⟩)⟩

/-- Claim C5: any platform value outside the three descriptor dictionary
keys win32, lin and darwin makes the resolver raise KeyError, either on a
missing environment variable or on the dictionary lookup itself; no
default descriptor is returned. -/
theorem c5_unrecognized_platform_fails (database server dsn : String)
    (username password : Option String) (env : OsEnv) (platform : String)
    (h1 : platform ≠ "win32") (h2 : platform ≠ "lin")
    (h3 : platform ≠ "darwin") :
    ∃ key, _get_connection_string database server username password dsn
      platform env = Except.error (PyError.keyError key) := by
  have hlook : ∀ u p : Option String,
      connectionStringLookup database server u p dsn platform =
        Except.error (PyError.keyError platform) := by
    intro u p
    unfold connectionStringLookup
    rw [if_neg h1, if_neg h2, if_neg h3]
  by_cases hplat : platform = "darwin" ∨ platform = "linux"
  · cases hu : resolveEnvCred username env.sqlusername "SQLUSERNAME" with
    | error e =>
      refine ⟨"SQLUSERNAME", ?_⟩
      have he := resolveEnvCred_error _ _ _ _ hu
      subst he
      unfold _get_connection_string
      rw [if_pos hplat, hu]
    | ok u =>
      cases hp : resolveEnvCred password env.sqlpassword "SQLPASSWORD" with
      | error e =>
        refine ⟨"SQLPASSWORD", ?_⟩
        have he := resolveEnvCred_error _ _ _ _ hp
        subst he
        unfold _get_connection_string
        rw [if_pos hplat, hu, hp]
      | ok p =>
        refine ⟨platform, ?_⟩
        unfold _get_connection_string
        rw [if_pos hplat, hu, hp]
        exact hlook u p
  · refine ⟨platform, ?_⟩
    unfold _get_connection_string
    rw [if_neg hplat]
    exact hlook username password

/-- Witness for claim C5 at a concrete input: the platform value freebsd
fails with KeyError. -/
theorem c5_unrecognized_platform_fails_witness :
    (("freebsd" : String) ≠ "win32" ∧ ("freebsd" : String) ≠ "lin" ∧
      ("freebsd" : String) ≠ "darwin") ∧
    ∃ key, _get_connection_string "QuantDB" "DC1Q2PSQLGE1V" none none
      "MYMSSQL" "freebsd" (OsEnv.mk none none) =
        Except.error (PyError.keyError key) :=
  ⟨⟨by decide, by decide, by decide⟩,
    c5_unrecognized_platform_fails "QuantDB" "DC1Q2PSQLGE1V" "MYMSSQL"
      none none (OsEnv.mk none none) "freebsd" (by decide) (by decide)
      (by decide)⟩

/-- Claim C3: when the command contains no occurrence of the marker, the
construction raises IndexError during name extraction and the trace is
empty: no drop, no connection, no statement. -/
theorem c3_no_marker_fails_without_connection
    (command database server : String) (username password : Option String)
    (dsn sysPlatform : String) (env : OsEnv)
    (h : findFirstMatch command.toList = none) :
    TempTable.init command database server username password dsn
      sysPlatform env = ([], Except.error PyError.indexError) := by
  have hex : extractTempTableName command =
      Except.error PyError.indexError := by
    unfold extractTempTableName
    rw [h]
  unfold TempTable.init
  rw [hex]

/-- Witness for claim C3 at a concrete input: a command without the marker
fails with IndexError and an empty trace. -/
theorem c3_no_marker_fails_without_connection_witness :
    findFirstMatch ("SELECT 1 AS test;".toList) = none ∧
    TempTable.init "SELECT 1 AS test;" "QuantDB" "DC1Q2PSQLGE1V" none none
      "MYMSSQL" "darwin" (OsEnv.mk none none) =
      ([], Except.error PyError.indexError) :=
  ⟨by decide,
    c3_no_marker_fails_without_connection "SELECT 1 AS test;" "QuantDB"
      "DC1Q2PSQLGE1V" none none "MYMSSQL" "darwin" (OsEnv.mk none none)
      (by decide)⟩

/-- A successful first match comes from the marker matcher at some
position. -/
theorem findFirstMatch_some (l m : List Char)
    (h : findFirstMatch l = some m) : ∃ t, matchMarkerAt t = some m := by
  induction l with
  | nil => simp [findFirstMatch] at h
  | cons c cs ih =>
    unfold findFirstMatch at h
    cases hm : matchMarkerAt (c :: cs) with
    | some m2 =>
      rw [hm] at h
      simp at h
      subst h
      exact ⟨c :: cs, hm⟩
    | none =>
      rw [hm] at h
      simp at h
      exact ih h

/-- A marker match whose separator character, at position 4, is not the
space character contains no space character at all. -/
theorem matchMarkerAt_no_space (l m : List Char)
    (h : matchMarkerAt l = some m) (h4 : m.get? 4 ≠ some ' ') :
    ' ' ∉ m := by
  rcases l with _ | ⟨c1, _ | ⟨c2, _ | ⟨c3, _ | ⟨c4, _ | ⟨c5, _ | ⟨c6, _ |
    ⟨c7, rest⟩⟩⟩⟩⟩⟩⟩
  iterate 7 simp [matchMarkerAt] at h
  simp only [matchMarkerAt] at h
  split at h
  · rename_i hc
    injection h with hmv
    subst hmv
    simp only [Bool.and_eq_true, beq_iff_eq] at hc
    obtain ⟨⟨⟨⟨⟨⟨⟨hc1, hc2⟩, hc3⟩, hc4⟩, hc5⟩, hc6⟩, hc7⟩, hc8⟩ := hc
    subst hc6
    subst hc7
    intro hmem
    simp only [List.mem_cons] at hmem
    rcases hmem with h1 | h2 | h3 | hx4 | h5 | h6 | h7 | h8
    · rw [← h1] at hc1
      exact absurd hc1 (by decide)
    · rw [← h2] at hc2
      exact absurd hc2 (by decide)
    · rw [← h3] at hc3
      exact absurd hc3 (by decide)
    · rw [← hx4] at hc4
      exact absurd hc4 (by decide)
    · apply h4
      rw [← h5]
      exact rfl
    · exact absurd h6 (by decide)
    · exact absurd h7 (by decide)
    · have hw := List.mem_takeWhile_imp h8
      exact absurd hw (by decide)
  · exact absurd h (by simp)

/-- Splitting a list that contains no space character on the space
separator returns the one piece. -/
theorem splitOnSpace_of_not_mem (l : List Char) (h : ' ' ∉ l) :
    splitOnSpace l = [l] := by
  induction l with
  | nil => rfl
  | cons c cs ih =>
    have hc : ¬ c = ' ' := by
      intro hh
      exact h (by rw [hh]; exact List.mem_cons_self _ _)
    have hcs : ' ' ∉ cs := fun hh => h (List.mem_cons_of_mem c hh)
    unfold splitOnSpace
    rw [if_neg hc, ih hcs]

/-- When the first match splits into a single piece, name extraction
raises IndexError on the element 1 access. -/
theorem extractTempTableName_no_second_piece (command : String)
    (m : List Char) (hm : findFirstMatch command.toList = some m)
    (hs : splitOnSpace m = [m]) :
    extractTempTableName command = Except.error PyError.indexError := by
  unfold extractTempTableName
  rw [hm]
  show (match (splitOnSpace m).get? 1 with
        | none => Except.error PyError.indexError
        | some nameChars => Except.ok (String.mk nameChars)) =
    Except.error PyError.indexError
  rw [hs]
  exact rfl

/-- Claim C10: when the first match of the marker separates INTO from the
identifier with a whitespace character other than a single space, the
construction raises IndexError during name extraction, with an empty
trace: no connection is opened and no statement is run. -/
theorem c10_nonspace_separator_index_error
    (command database server : String) (username password : Option String)
    (dsn sysPlatform : String) (env : OsEnv) (m : List Char)
    (hm : findFirstMatch command.toList = some m)
    (hsep : m.get? 4 ≠ some ' ') :
    TempTable.init command database server username password dsn
      sysPlatform env = ([], Except.error PyError.indexError) := by
  obtain ⟨t, ht⟩ := findFirstMatch_some command.toList m hm
  have hns : ' ' ∉ m := matchMarkerAt_no_space t m ht hsep
  have hs := splitOnSpace_of_not_mem m hns
  have hex := extractTempTableName_no_second_piece command m hm hs
  unfold TempTable.init
  rw [hex]

/-- Witness for claim C10 at a concrete input: a tab between INTO and the
identifier raises IndexError with an empty trace. -/
theorem c10_nonspace_separator_index_error_witness :
    (findFirstMatch ("SELECT 1 INTO\t##one;".toList) =
        some ("INTO\t##one".toList) ∧
      ("INTO\t##one".toList).get? 4 ≠ some ' ') ∧
    TempTable.init "SELECT 1 INTO\t##one;" "QuantDB" "DC1Q2PSQLGE1V" none
      none "MYMSSQL" "darwin" (OsEnv.mk (some "u") (some "p")) =
      ([], Except.error PyError.indexError) :=
  ⟨⟨by decide, by decide⟩,
    c10_nonspace_separator_index_error "SELECT 1 INTO\t##one;" "QuantDB"
      "DC1Q2PSQLGE1V" none none "MYMSSQL" "darwin"
      (OsEnv.mk (some "u") (some "p")) ("INTO\t##one".toList) (by decide)
      (by decide)⟩

/-- Shape of every successful TempTable construction: the trace is exactly
a drop connection numbered 0 opened with the module default parameters and
executing the conditional drop, then the dedicated connection numbered 1
opened with the caller parameters and executing the creation command. -/
theorem tempTableInit_ok_shape (command database server : String)
    (username password : Option String) (dsn sysPlatform : String)
    (env : OsEnv) (name : String) (n : Nat) (tr : List Event)
    (h : TempTable.init command database server username password dsn
        sysPlatform env = (tr, Except.ok (name, n))) :
    n = 1 ∧ ∃ cs0 cs1,
      _get_connection_string "QuantDB" "DC1Q2PSQLGE1V" none none "MYMSSQL"
        sysPlatform env = Except.ok cs0 ∧
      _get_connection_string database server username password dsn
        sysPlatform env = Except.ok cs1 ∧
      tr = [Event.connect 0 cs0, Event.execute 0 (dropCommandFor name),
            Event.connect 1 cs1, Event.execute 1 command] := by
  cases hex : extractTempTableName command with
  | error e =>
    have hval : TempTable.init command database server username password
        dsn sysPlatform env = ([], Except.error e) := by
      unfold TempTable.init
      rw [hex]
    rw [hval] at h
    simp [Prod.ext_iff] at h
  | ok nm =>
    cases hcs0 : _get_connection_string "QuantDB" "DC1Q2PSQLGE1V" none none
        "MYMSSQL" sysPlatform env with
    | error e =>
      have hval : TempTable.init command database server username password
          dsn sysPlatform env = ([], Except.error e) := by
        unfold TempTable.init run_command
        rw [hex, hcs0]
      rw [hval] at h
      simp [Prod.ext_iff] at h
    | ok cs0 =>
      cases hcs1 : _get_connection_string database server username password
          dsn sysPlatform env with
      | error e =>
        have hval : TempTable.init command database server username
            password dsn sysPlatform env =
            ([Event.connect 0 cs0,
              Event.execute 0 (dropCommandFor nm)], Except.error e) := by
          unfold TempTable.init run_command
          rw [hex, hcs0, hcs1]
        rw [hval] at h
        simp [Prod.ext_iff] at h
      | ok cs1 =>
        have hval : TempTable.init command database server username
            password dsn sysPlatform env =
            ([Event.connect 0 cs0, Event.execute 0 (dropCommandFor nm),
              Event.connect 1 cs1, Event.execute 1 command],
              Except.ok (nm, 1)) := by
          unfold TempTable.init run_command
          rw [hex, hcs0, hcs1]
          exact rfl
        rw [hval] at h
        simp only [Prod.mk.injEq, Except.ok.injEq] at h
        obtain ⟨htr, hname, hn⟩ := h
        subst hname
        subst hn
        subst htr
        exact ⟨rfl, cs0, cs1, rfl, rfl, rfl⟩

/-- Claim C2 amended: the conditional drop runs through run_command on its
own short lived connection, numbered 0, opened before the dedicated
connection; the creation command is then the first statement executed on
the dedicated connection, numbered 1. -/
theorem c2_amended_separate_drop_connection
    (command database server : String) (username password : Option String)
    (dsn sysPlatform : String) (env : OsEnv) (name : String) (n : Nat)
    (tr : List Event)
    (h : TempTable.init command database server username password dsn
        sysPlatform env = (tr, Except.ok (name, n))) :
    ∃ cs0 cs1,
      tr = [Event.connect 0 cs0, Event.execute 0 (dropCommandFor name),
            Event.connect 1 cs1, Event.execute 1 command] := by
  obtain ⟨-, cs0, cs1, -, -, htr⟩ := tempTableInit_ok_shape command
    database server username password dsn sysPlatform env name n tr h
  exact ⟨cs0, cs1, htr⟩

/-- Witness for the amended claim C2 at a concrete input. -/
theorem c2_amended_separate_drop_connection_witness :
    TempTable.init "SELECT 1 AS test INTO ##one;" "QuantDB" "DC1Q2PSQLGE1V"
      none none "MYMSSQL" "win32" (OsEnv.mk none none) =
      (sampleTraceWin, Except.ok ("##one", 1)) ∧
    ∃ cs0 cs1, sampleTraceWin =
      [Event.connect 0 cs0, Event.execute 0 (dropCommandFor "##one"),
       Event.connect 1 cs1,
       Event.execute 1 "SELECT 1 AS test INTO ##one;"] :=
  ⟨rfl, c2_amended_separate_drop_connection "SELECT 1 AS test INTO ##one;"
    "QuantDB" "DC1Q2PSQLGE1V" none none "MYMSSQL" "win32"
    (OsEnv.mk none none) "##one" 1 sampleTraceWin rfl⟩

/-- Claim C9: in every successful construction the drop connection is
resolved from the module default arguments QuantDB, DC1Q2PSQLGE1V, absent
credentials and MYMSSQL, independent of the constructor arguments, while
the dedicated connection for the creation statement is resolved from the
constructor arguments. -/
theorem c9_drop_uses_module_defaults (command database server : String)
    (username password : Option String) (dsn sysPlatform : String)
    (env : OsEnv) (name : String) (n : Nat) (tr : List Event)
    (h : TempTable.init command database server username password dsn
        sysPlatform env = (tr, Except.ok (name, n))) :
    ∃ cs0 cs1,
      _get_connection_string "QuantDB" "DC1Q2PSQLGE1V" none none "MYMSSQL"
        sysPlatform env = Except.ok cs0 ∧
      _get_connection_string database server username password dsn
        sysPlatform env = Except.ok cs1 ∧
      tr = [Event.connect 0 cs0, Event.execute 0 (dropCommandFor name),
            Event.connect 1 cs1, Event.execute 1 command] := by
  obtain ⟨-, cs0, cs1, hcs0, hcs1, htr⟩ := tempTableInit_ok_shape command
    database server username password dsn sysPlatform env name n tr h
  exact ⟨cs0, cs1, hcs0, hcs1, htr⟩

/-- Witness for claim C9 at a concrete input with caller chosen database
and server: the drop connection still targets the module defaults. -/
theorem c9_drop_uses_module_defaults_witness :
    TempTable.init "SELECT 1 AS test INTO ##one;" "OtherDB" "OtherServer"
      none none "MYMSSQL" "win32" (OsEnv.mk none none) =
      (sampleTraceOther, Except.ok ("##one", 1)) ∧
    ∃ cs0 cs1,
      _get_connection_string "QuantDB" "DC1Q2PSQLGE1V" none none "MYMSSQL"
        "win32" (OsEnv.mk none none) = Except.ok cs0 ∧
      _get_connection_string "OtherDB" "OtherServer" none none "MYMSSQL"
        "win32" (OsEnv.mk none none) = Except.ok cs1 ∧
      sampleTraceOther =
        [Event.connect 0 cs0, Event.execute 0 (dropCommandFor "##one"),
         Event.connect 1 cs1,
         Event.execute 1 "SELECT 1 AS test INTO ##one;"] :=
  ⟨rfl, c9_drop_uses_module_defaults "SELECT 1 AS test INTO ##one;"
    "OtherDB" "OtherServer" none none "MYMSSQL" "win32" (OsEnv.mk none none)
    "##one" 1 sampleTraceOther rfl⟩

end Sqltools
